import Mathlib

/- Shallow embedding of the StockNewsBotApp backend (backend_app.py and
pages/SBI.py): keyword sentiment scoring, action mapping, mock OHLCV
generation, symbol resolution, news-fetch fallbacks and the news-analysis
pipeline. Python floats are modelled as rationals; round(x, 2) is modelled
as half-up rounding to hundredths (the half-to-even difference is
immaterial to the properties proved here); every random draw is an
explicit oracle argument producing values in [0, 1). -/

/-- Model of Python str.lower (ASCII-faithful). -/
def toLowerStr (s : String) : String := ⟨s.data.map Char.toLower⟩

/-- Model of Python str.upper (ASCII-faithful). -/
def toUpperStr (s : String) : String := ⟨s.data.map Char.toUpper⟩

/-- The needle occurs contiguously at the head of the haystack. -/
def listStartsWith : List Char → List Char → Bool
  | [], _ => true
  | _ :: _, [] => false
  | a :: as, b :: bs => a == b && listStartsWith as bs

/-- The needle occurs contiguously somewhere in the haystack. -/
def occursIn (needle : List Char) : List Char → Bool
  | [] => listStartsWith needle []
  | b :: bs => listStartsWith needle (b :: bs) || occursIn needle bs

/-- Model of the Python substring test (needle in hay). -/
def containsStr (hay needle : String) : Bool := occursIn needle.data hay.data

/-- Model of Python round(x, 2): rounding to two decimal places. -/
def round2 (q : ℚ) : ℚ := ((⌊q * 100 + 1/2⌋ : ℤ) : ℚ) / 100

/-- A rational that is an integer number of hundredths, i.e. a value
rounded to two decimal places. -/
def isCent (q : ℚ) : Prop := ∃ k : ℤ, q = (k : ℚ) / 100

/-- Positive keyword list of analyze_sentiment (backend_app.py line 47). -/
def positive_keywords : List String :=
  ["profit", "soar", "jump", "rises", "invest", "contract", "boosts", "growth",
   "strong", "improves", "expands", "dividend", "bullish", "exceeding expectations",
   "robust", "healthy", "gains", "partnership", "collaboration", "launch"]

/-- Negative keyword list of analyze_sentiment (backend_app.py line 48). -/
def negative_keywords : List String :=
  ["loss", "headwinds", "rising fuel", "supply chain issues", "missed", "resigned",
   "downgrade", "decline", "fall", "struggle", "uncertainty", "volatility", "challenges"]

/-- Neutral keyword list of analyze_sentiment (backend_app.py line 49). -/
def neutral_keywords : List String :=
  ["board approves", "plans", "announces", "decision", "discussions", "talks",
   "quarterly results"]

/-- The score accumulation loops of analyze_sentiment: plus one per positive
keyword present in the lowered text, minus one per negative keyword present. -/
def sentimentScore (text_lower : String) : ℤ :=
  let s := positive_keywords.foldl
    (fun score keyword => if containsStr text_lower keyword then score + 1 else score) 0
  negative_keywords.foldl
    (fun score keyword => if containsStr text_lower keyword then score - 1 else score) s

/-- Model of analyze_sentiment (backend_app.py lines 46 to 68), including the
redundant neutral-keyword branch of the source. -/
def analyze_sentiment (text : String) : String :=
  let text_lower := toLowerStr text
  let score := sentimentScore text_lower
  if score > 0 then "positive"
  else if score < 0 then "negative"
  else if neutral_keywords.any (fun keyword => containsStr text_lower keyword)
    then "neutral" else "neutral"

/-- Model of perform_ner (backend_app.py lines 32 to 44). -/
def perform_ner (text current_stock_symbol : String) : String :=
  let text_lower := toLowerStr text
  if containsStr text_lower (toLowerStr current_stock_symbol)
      || containsStr text_lower "indian railways catering"
      || containsStr text_lower "state bank of india"
      || containsStr text_lower "tata motors"
      || containsStr text_lower "bharat electronics"
      || containsStr text_lower "indigo airlines"
      || containsStr text_lower "bel"
      || containsStr text_lower "sbi"
  then current_stock_symbol else "N/A"

lemma foldl_count_add (p : String → Bool) (l : List String) :
    ∀ init : ℤ,
      l.foldl (fun score k => if p k then score + 1 else score) init
        = init + (l.countP p : ℤ) := by
  induction l with
  | nil => intro init; simp
  | cons a l ih =>
    intro init
    by_cases h : p a
    · simp [List.foldl_cons, h, ih, List.countP_cons]
      ring
    · simp [List.foldl_cons, h, ih, List.countP_cons]

lemma foldl_count_sub (p : String → Bool) (l : List String) :
    ∀ init : ℤ,
      l.foldl (fun score k => if p k then score - 1 else score) init
        = init - (l.countP p : ℤ) := by
  induction l with
  | nil => intro init; simp
  | cons a l ih =>
    intro init
    by_cases h : p a
    · simp [List.foldl_cons, h, ih, List.countP_cons]
      ring
    · simp [List.foldl_cons, h, ih, List.countP_cons]

lemma sentimentScore_eq_counts (t : String) :
    sentimentScore t
      = (positive_keywords.countP (fun k => containsStr t k) : ℤ)
        - (negative_keywords.countP (fun k => containsStr t k) : ℤ) := by
  unfold sentimentScore
  rw [foldl_count_add, foldl_count_sub]
  ring

/-- Claim C1: the Sentiment Scorer returns "positive" exactly when the score
is positive, "negative" exactly when it is negative, and "neutral" otherwise,
where the score counts each positive keyword present in the lowered text as
plus one and each negative keyword present as minus one (presence, not
occurrence count); the neutral-keyword list never changes the output. -/
theorem C1_sentiment_labels (text : String) :
    (sentimentScore (toLowerStr text)
        = (positive_keywords.countP (fun k => containsStr (toLowerStr text) k) : ℤ)
          - (negative_keywords.countP (fun k => containsStr (toLowerStr text) k) : ℤ)) ∧
    (analyze_sentiment text = "positive" ↔ 0 < sentimentScore (toLowerStr text)) ∧
    (analyze_sentiment text = "negative" ↔ sentimentScore (toLowerStr text) < 0) ∧
    (analyze_sentiment text = "neutral" ↔ sentimentScore (toLowerStr text) = 0) := by
  refine ⟨sentimentScore_eq_counts _, ?_⟩
  have hpn : ("positive" : String) ≠ "negative" := by decide
  have hpz : ("positive" : String) ≠ "neutral" := by decide
  have hnz : ("negative" : String) ≠ "neutral" := by decide
  unfold analyze_sentiment
  set s := sentimentScore (toLowerStr text) with hs
  by_cases h1 : s > 0
  · simp only [if_pos h1]
    refine ⟨by simpa using h1, ?_, ?_⟩
    · constructor
      · intro h; exact absurd h hpn
      · intro h; omega
    · constructor
      · intro h; exact absurd h hpz
      · intro h; omega
  · simp only [if_neg h1]
    by_cases h2 : s < 0
    · simp only [if_pos h2]
      refine ⟨?_, by simpa using h2, ?_⟩
      · constructor
        · intro h; exact absurd h.symm hpn
        · intro h; omega
      · constructor
        · intro h; exact absurd h hnz
        · intro h; omega
    · simp only [if_neg h2, ite_self]
      refine ⟨?_, ?_, ?_⟩
      · constructor
        · intro h; exact absurd h.symm hpz
        · intro h; omega
      · constructor
        · intro h; exact absurd h.symm hnz
        · intro h; omega
      · constructor
        · intro _; omega
        · intro _; trivial

lemma round2_mono {x y : ℚ} (h : x ≤ y) : round2 x ≤ round2 y := by
  unfold round2
  have hf : ⌊x * 100 + 1/2⌋ ≤ ⌊y * 100 + 1/2⌋ := Int.floor_mono (by linarith)
  have hf' : ((⌊x * 100 + 1/2⌋ : ℤ) : ℚ) ≤ ((⌊y * 100 + 1/2⌋ : ℤ) : ℚ) := by
    exact_mod_cast hf
  linarith

lemma round2_min (a b : ℚ) : round2 (min a b) = min (round2 a) (round2 b) := by
  rcases le_total a b with h | h
  · rw [min_eq_left h, min_eq_left (round2_mono h)]
  · rw [min_eq_right h, min_eq_right (round2_mono h)]

lemma round2_max (a b : ℚ) : round2 (max a b) = max (round2 a) (round2 b) := by
  rcases le_total a b with h | h
  · rw [max_eq_right h, max_eq_right (round2_mono h)]
  · rw [max_eq_left h, max_eq_left (round2_mono h)]

lemma isCent_round2 (q : ℚ) : isCent (round2 q) := ⟨⌊q * 100 + 1/2⌋, rfl⟩

lemma round2_bounds {x : ℚ} {a b : ℤ} (h1 : (a : ℚ) ≤ x * 100) (h2 : x * 100 ≤ (b : ℚ)) :
    (a : ℚ) / 100 ≤ round2 x ∧ round2 x ≤ (b : ℚ) / 100 := by
  unfold round2
  have hlow : a ≤ ⌊x * 100 + 1/2⌋ := Int.le_floor.mpr (by linarith)
  have hup : ⌊x * 100 + 1/2⌋ ≤ b := by
    have h3 : ((⌊x * 100 + 1/2⌋ : ℤ) : ℚ) ≤ x * 100 + 1/2 := Int.floor_le _
    have h4 : ((⌊x * 100 + 1/2⌋ : ℤ) : ℚ) < (b : ℚ) + 1 := by linarith
    exact_mod_cast Int.lt_add_one_iff.mp (by exact_mod_cast h4)
  constructor
  · have : (a : ℚ) ≤ ((⌊x * 100 + 1/2⌋ : ℤ) : ℚ) := by exact_mod_cast hlow
    linarith
  · have : ((⌊x * 100 + 1/2⌋ : ℤ) : ℚ) ≤ (b : ℚ) := by exact_mod_cast hup
    linarith

/-- Output record of map_news_to_action. -/
structure ActionData where
  recommended_action : String
  confidence : ℚ
  stop_loss : ℚ
  take_profit : ℚ
deriving DecidableEq

/-- Model of map_news_to_action (backend_app.py lines 70 to 92). The oracle
r gives the successive random draws, each in [0, 1): r 0, r 1, r 2 are the
draws of the default (HOLD) confidence, stop loss and take profit; r 3, r 4,
r 5 are the draws of the positive or negative branch. A uniform(lo, hi) call
is lo plus the draw times (hi minus lo). -/
def map_news_to_action (sentiment : String) (r : ℕ → ℚ) : ActionData :=
  let action := "HOLD"
  let confidence := round2 (4/10 + r 0 * (2/10))
  let stop_loss := round2 (1 + r 1 * (2 - 1))
  let take_profit := round2 (2 + r 2 * (4 - 2))
  if sentiment = "positive" then
    { recommended_action := "BUY",
      confidence := round2 (7/10 + r 3 * (2/10)),
      stop_loss := round2 (5/2 + r 4 * 1),
      take_profit := round2 (5 + r 5 * 2) }
  else if sentiment = "negative" then
    { recommended_action := "SELL/SHORT",
      confidence := round2 (7/10 + r 3 * (2/10)),
      stop_loss := round2 (3 + r 4 * 1),
      take_profit := round2 (6 + r 5 * 2) }
  else
    { recommended_action := action, confidence := confidence,
      stop_loss := stop_loss, take_profit := take_profit }

lemma round2_cent (k : ℤ) : round2 ((k : ℚ)/100) = (k : ℚ)/100 := by
  unfold round2
  have h1 : (k : ℚ)/100 * 100 = (k : ℚ) := by field_simp
  rw [h1]
  have h0 : ⌊(1 : ℚ)/2⌋ = 0 := by
    rw [Int.floor_eq_zero_iff]
    constructor <;> norm_num
  have h2 : ⌊(k : ℚ) + 1/2⌋ = k := by
    rw [add_comm, Int.floor_add_int, h0, zero_add]
  rw [h2]

lemma round2_le_of_le {x y : ℚ} (k : ℤ) (hy : y = (k : ℚ)/100) (h : x ≤ y) :
    round2 x ≤ y := by
  calc round2 x ≤ round2 y := round2_mono h
    _ = y := by rw [hy, round2_cent]

lemma le_round2_of_le {x y : ℚ} (k : ℤ) (hy : y = (k : ℚ)/100) (h : y ≤ x) :
    y ≤ round2 x := by
  calc y = round2 y := by rw [hy, round2_cent]
    _ ≤ round2 x := round2_mono h

lemma map_news_to_action_pos (r : ℕ → ℚ) :
    map_news_to_action "positive" r =
      { recommended_action := "BUY", confidence := round2 (7/10 + r 3 * (2/10)),
        stop_loss := round2 (5/2 + r 4 * 1), take_profit := round2 (5 + r 5 * 2) } := by
  unfold map_news_to_action
  rw [if_pos rfl]

lemma map_news_to_action_neg (r : ℕ → ℚ) :
    map_news_to_action "negative" r =
      { recommended_action := "SELL/SHORT", confidence := round2 (7/10 + r 3 * (2/10)),
        stop_loss := round2 (3 + r 4 * 1), take_profit := round2 (6 + r 5 * 2) } := by
  unfold map_news_to_action
  rw [if_neg (by decide : ¬("negative" : String) = "positive"), if_pos rfl]

lemma map_news_to_action_other (s : String) (r : ℕ → ℚ)
    (hp : s ≠ "positive") (hn : s ≠ "negative") :
    map_news_to_action s r =
      { recommended_action := "HOLD", confidence := round2 (4/10 + r 0 * (2/10)),
        stop_loss := round2 (1 + r 1 * (2 - 1)), take_profit := round2 (2 + r 2 * (4 - 2)) } := by
  unfold map_news_to_action
  rw [if_neg hp, if_neg hn]

/-- Claim C2: for every sentiment label and every value of the random source,
the Action Mapper returns BUY with confidence in [0.70, 0.90], stop loss in
[2.5, 3.5] and take profit in [5.0, 7.0] for "positive"; SELL/SHORT with
confidence in [0.70, 0.90], stop loss in [3.0, 4.0] and take profit in
[6.0, 8.0] for "negative"; HOLD with confidence in [0.40, 0.60], stop loss in
[1.0, 2.0] and take profit in [2.0, 4.0] for any other label; and the three
numeric outputs are always rounded to two decimal places. -/
theorem C2_action_mapper_ranges (sentiment : String) (r : ℕ → ℚ)
    (hr : ∀ n, 0 ≤ r n ∧ r n < 1) :
    (sentiment = "positive" →
      (map_news_to_action sentiment r).recommended_action = "BUY" ∧
      7/10 ≤ (map_news_to_action sentiment r).confidence ∧
      (map_news_to_action sentiment r).confidence ≤ 9/10 ∧
      5/2 ≤ (map_news_to_action sentiment r).stop_loss ∧
      (map_news_to_action sentiment r).stop_loss ≤ 7/2 ∧
      5 ≤ (map_news_to_action sentiment r).take_profit ∧
      (map_news_to_action sentiment r).take_profit ≤ 7) ∧
    (sentiment = "negative" →
      (map_news_to_action sentiment r).recommended_action = "SELL/SHORT" ∧
      7/10 ≤ (map_news_to_action sentiment r).confidence ∧
      (map_news_to_action sentiment r).confidence ≤ 9/10 ∧
      3 ≤ (map_news_to_action sentiment r).stop_loss ∧
      (map_news_to_action sentiment r).stop_loss ≤ 4 ∧
      6 ≤ (map_news_to_action sentiment r).take_profit ∧
      (map_news_to_action sentiment r).take_profit ≤ 8) ∧
    (sentiment ≠ "positive" → sentiment ≠ "negative" →
      (map_news_to_action sentiment r).recommended_action = "HOLD" ∧
      2/5 ≤ (map_news_to_action sentiment r).confidence ∧
      (map_news_to_action sentiment r).confidence ≤ 3/5 ∧
      1 ≤ (map_news_to_action sentiment r).stop_loss ∧
      (map_news_to_action sentiment r).stop_loss ≤ 2 ∧
      2 ≤ (map_news_to_action sentiment r).take_profit ∧
      (map_news_to_action sentiment r).take_profit ≤ 4) ∧
    isCent (map_news_to_action sentiment r).confidence ∧
    isCent (map_news_to_action sentiment r).stop_loss ∧
    isCent (map_news_to_action sentiment r).take_profit := by
  obtain ⟨h0l, h0u⟩ := hr 0
  obtain ⟨h1l, h1u⟩ := hr 1
  obtain ⟨h2l, h2u⟩ := hr 2
  obtain ⟨h3l, h3u⟩ := hr 3
  obtain ⟨h4l, h4u⟩ := hr 4
  obtain ⟨h5l, h5u⟩ := hr 5
  by_cases hp : sentiment = "positive"
  · subst hp
    rw [map_news_to_action_pos r]
    refine ⟨fun _ => ⟨rfl, ?_, ?_, ?_, ?_, ?_, ?_⟩,
      fun h => absurd h (by decide), fun h _ => absurd rfl h, ?_, ?_, ?_⟩
    · exact le_round2_of_le 70 (by norm_num) (by linarith)
    · exact round2_le_of_le 90 (by norm_num) (by linarith)
    · exact le_round2_of_le 250 (by norm_num) (by linarith)
    · exact round2_le_of_le 350 (by norm_num) (by linarith)
    · exact le_round2_of_le 500 (by norm_num) (by linarith)
    · exact round2_le_of_le 700 (by norm_num) (by linarith)
    · exact isCent_round2 _
    · exact isCent_round2 _
    · exact isCent_round2 _
  · by_cases hn : sentiment = "negative"
    · subst hn
      rw [map_news_to_action_neg r]
      refine ⟨fun h => absurd h (by decide), fun _ => ⟨rfl, ?_, ?_, ?_, ?_, ?_, ?_⟩,
        fun _ h => absurd rfl h, ?_, ?_, ?_⟩
      · exact le_round2_of_le 70 (by norm_num) (by linarith)
      · exact round2_le_of_le 90 (by norm_num) (by linarith)
      · exact le_round2_of_le 300 (by norm_num) (by linarith)
      · exact round2_le_of_le 400 (by norm_num) (by linarith)
      · exact le_round2_of_le 600 (by norm_num) (by linarith)
      · exact round2_le_of_le 800 (by norm_num) (by linarith)
      · exact isCent_round2 _
      · exact isCent_round2 _
      · exact isCent_round2 _
    · rw [map_news_to_action_other sentiment r hp hn]
      refine ⟨fun h => absurd h hp, fun h => absurd h hn,
        fun _ _ => ⟨rfl, ?_, ?_, ?_, ?_, ?_, ?_⟩, ?_, ?_, ?_⟩
      · exact le_round2_of_le 40 (by norm_num) (by linarith)
      · exact round2_le_of_le 60 (by norm_num) (by linarith)
      · exact le_round2_of_le 100 (by norm_num) (by linarith)
      · exact round2_le_of_le 200 (by norm_num) (by linarith)
      · exact le_round2_of_le 200 (by norm_num) (by linarith)
      · exact round2_le_of_le 400 (by norm_num) (by linarith)
      · exact isCent_round2 _
      · exact isCent_round2 _
      · exact isCent_round2 _

/-- Witness for C2: the positive branch evaluated at the constant draw 1/2. -/
theorem C2_action_mapper_ranges_witness :
    (map_news_to_action "positive" (fun _ => 1/2)).recommended_action = "BUY" ∧
    7/10 ≤ (map_news_to_action "positive" (fun _ => 1/2)).confidence ∧
    (map_news_to_action "positive" (fun _ => 1/2)).confidence ≤ 9/10 ∧
    5/2 ≤ (map_news_to_action "positive" (fun _ => 1/2)).stop_loss ∧
    (map_news_to_action "positive" (fun _ => 1/2)).stop_loss ≤ 7/2 ∧
    5 ≤ (map_news_to_action "positive" (fun _ => 1/2)).take_profit ∧
    (map_news_to_action "positive" (fun _ => 1/2)).take_profit ≤ 7 :=
  (C2_action_mapper_ranges "positive" (fun _ => 1/2)
    (fun _ => by norm_num)).1 rfl

/-- Canonical news article shape (source, title, content, url, publishedAt,
event), as produced by get_financial_news_api. -/
structure NewsArticle where
  source : String
  title : String
  content : String
  url : String
  publishedAt : String
  event : String
deriving DecidableEq

/-- One entry of the processed_news list built by the /news_analysis
endpoint (backend_app.py lines 358 to 368). -/
structure ProcessedNewsItem where
  source : String
  title : String
  content : String
  url : String
  publishedAt : String
  sentiment : String
  event : String
  recommended_action : String
  confidence : ℚ
deriving DecidableEq

/-- The latest_trading_signal record of the /news_analysis endpoint. -/
structure TradingSignal where
  ticker : String
  sentiment : String
  event : String
  confidence : ℚ
  recommended_action : String
  stop_loss : ℚ
  take_profit : ℚ
deriving DecidableEq

/-- The neutral default trading signal (backend_app.py lines 338 to 346). -/
def defaultTradingSignal (query : String) : TradingSignal :=
  { ticker := query, sentiment := "N/A", event := "N/A", confidence := 0,
    recommended_action := "HOLD", stop_loss := 0, take_profit := 0 }

/-- The enumerate loop of the /news_analysis endpoint (backend_app.py lines
351 to 380): i is the current enumeration index, the accumulator holds the
trading signal set so far; rng i gives the random draws consumed by the
Action Mapper call for article i. Returns the processed list in input order
together with the final latest_trading_signal. -/
def processLoop (query : String) (rng : ℕ → ℕ → ℚ) :
    ℕ → List NewsArticle → TradingSignal → List ProcessedNewsItem × TradingSignal
  | _, [], sig => ([], sig)
  | i, a :: rest, sig =>
    let full_text := a.title ++ " " ++ a.content
    let ticker_identified := perform_ner full_text query
    let sentiment := analyze_sentiment full_text
    let action_data := map_news_to_action sentiment (rng i)
    let item : ProcessedNewsItem :=
      { source := a.source, title := a.title, content := a.content, url := a.url,
        publishedAt := a.publishedAt, sentiment := sentiment, event := a.event,
        recommended_action := action_data.recommended_action,
        confidence := action_data.confidence }
    let sig' := if i = 0 then
        { ticker := ticker_identified, sentiment := sentiment, event := a.event,
          confidence := action_data.confidence,
          recommended_action := action_data.recommended_action,
          stop_loss := action_data.stop_loss,
          take_profit := action_data.take_profit }
      else sig
    let rec_result := processLoop query rng (i + 1) rest sig'
    (item :: rec_result.1, rec_result.2)

/-- Model of the /news_analysis endpoint body after the news fetch
(backend_app.py lines 337 to 382). The raw argument is the value returned by
get_financial_news_api: none models the Python None fall-through, and both
none and an empty list are falsy in the emptiness guard of the source. -/
def news_analysis (query : String) (raw : Option (List NewsArticle))
    (rng : ℕ → ℕ → ℚ) : List ProcessedNewsItem × TradingSignal :=
  match raw with
  | none => ([], defaultTradingSignal query)
  | some articles =>
    if articles.isEmpty then ([], defaultTradingSignal query)
    else processLoop query rng 0 articles (defaultTradingSignal query)

lemma processLoop_signal_of_ne_zero (query : String) (rng : ℕ → ℕ → ℚ) :
    ∀ (rest : List NewsArticle) (i : ℕ) (sig : TradingSignal), i ≠ 0 →
      (processLoop query rng i rest sig).2 = sig := by
  intro rest
  induction rest with
  | nil => intro i sig _; rfl
  | cons a rest ih =>
    intro i sig hi
    show (processLoop query rng (i + 1) rest _).2 = sig
    rw [ih (i + 1) _ (Nat.succ_ne_zero i)]
    exact if_neg hi

/-- Claim C3: for every nonempty fetched article list, the trading signal of
the news-analysis pipeline is built from the first article only: its ticker
is the Entity Tagger result for that article, and its sentiment, event,
confidence, recommended action, stop loss and take profit are the values
derived for that article, unaffected by the later articles. -/
theorem C3_signal_from_first_article (query : String) (rng : ℕ → ℕ → ℚ)
    (a : NewsArticle) (rest : List NewsArticle) :
    (news_analysis query (some (a :: rest)) rng).2 =
      { ticker := perform_ner (a.title ++ " " ++ a.content) query,
        sentiment := analyze_sentiment (a.title ++ " " ++ a.content),
        event := a.event,
        confidence :=
          (map_news_to_action (analyze_sentiment (a.title ++ " " ++ a.content)) (rng 0)).confidence,
        recommended_action :=
          (map_news_to_action (analyze_sentiment (a.title ++ " " ++ a.content)) (rng 0)).recommended_action,
        stop_loss :=
          (map_news_to_action (analyze_sentiment (a.title ++ " " ++ a.content)) (rng 0)).stop_loss,
        take_profit :=
          (map_news_to_action (analyze_sentiment (a.title ++ " " ++ a.content)) (rng 0)).take_profit } := by
  show (processLoop query rng 0 (a :: rest) (defaultTradingSignal query)).2 = _
  show (processLoop query rng 1 rest _).2 = _
  rw [processLoop_signal_of_ne_zero query rng rest 1 _ one_ne_zero]
  exact if_pos rfl

/-- Claim C4: with an empty fetched article list the pipeline returns an
empty annotated list and exactly the neutral default trading signal, with
ticker equal to the input symbol. -/
theorem C4_empty_articles_default_signal (query : String) (rng : ℕ → ℕ → ℚ) :
    news_analysis query (some []) rng =
      ([], { ticker := query, sentiment := "N/A", event := "N/A", confidence := 0,
             recommended_action := "HOLD", stop_loss := 0, take_profit := 0 }) := rfl

/-- One row of the mock OHLCV series (backend_app.py lines 130 to 137);
Date is a timestamp in seconds. -/
structure PricePoint where
  Date : ℤ
  Open : ℚ
  High : ℚ
  Low : ℚ
  Close : ℚ
  Volume : ℤ
deriving DecidableEq

/-- The interval-seconds and point-count chain of
generate_mock_stock_data_local (backend_app.py lines 102 to 116); both stay
at their zero initialisation for an unrecognised timeframe. -/
def timeframeTable (timeframe : String) : ℤ × ℕ :=
  if timeframe = "5m" then (5 * 60, 60)
  else if timeframe = "1d" then (60 * 60, 8)
  else if timeframe = "1w" then (24 * 60 * 60, 5)
  else if timeframe = "1m" then (24 * 60 * 60, 20)
  else if timeframe = "1y" then (24 * 60 * 60, 250)
  else (0, 0)

/-- Python truthiness of the num_points_override argument: None and 0 are
falsy (backend_app.py line 118). -/
def truthyOverride : Option ℕ → Bool
  | none => false
  | some n => n != 0

/-- The generation loop of generate_mock_stock_data_local (backend_app.py
lines 124 to 138): i is the loop index, the second argument the number of
points still to generate, the last the running last_close (kept unrounded,
as in the source). rng gives the successive uniform draws in [0, 1), four
per point (open, close, high and low perturbations); vrng i is the volume
drawn for point i. -/
def mockPoints (rng : ℕ → ℚ) (vrng : ℕ → ℤ) (start_date interval : ℤ) :
    ℕ → ℕ → ℚ → List PricePoint
  | _, 0, _ => []
  | i, n + 1, last_close =>
    let open_price := last_close * (1 + (rng (4*i) - 1/2) * (2/100))
    let close_price := open_price * (1 + (rng (4*i+1) - 1/2) * (2/100))
    let high_price := max open_price close_price * (1 + rng (4*i+2) * (1/100))
    let low_price := min open_price close_price * (1 - rng (4*i+3) * (1/100))
    { Date := start_date + (i : ℤ) * interval,
      Open := round2 open_price, High := round2 high_price,
      Low := round2 low_price, Close := round2 close_price,
      Volume := vrng i } :: mockPoints rng vrng start_date interval (i + 1) n close_price

/-- Model of generate_mock_stock_data_local (backend_app.py lines 95 to
140). now is the current time in seconds; r0 in [0, 1) drives the
uniform(980, 1020) starting price; rng and vrng drive the per-point price
and volume draws. -/
def generate_mock_stock_data_local (timeframe : String)
    (num_points_override : Option ℕ) (now : ℤ) (r0 : ℚ)
    (rng : ℕ → ℚ) (vrng : ℕ → ℤ) : List PricePoint :=
  let last_close := 980 + r0 * (1020 - 980)
  let interval_seconds := (timeframeTable timeframe).1
  let table_points := (timeframeTable timeframe).2
  let num_points := if truthyOverride num_points_override
    then num_points_override.getD 0 else table_points
  let start_date := now - ((num_points : ℤ) - 1) * interval_seconds
  mockPoints rng vrng start_date interval_seconds 0 num_points last_close

lemma mockPoints_length (rng : ℕ → ℚ) (vrng : ℕ → ℤ) (sd iv : ℤ) :
    ∀ (n i : ℕ) (lc : ℚ), (mockPoints rng vrng sd iv i n lc).length = n := by
  intro n
  induction n with
  | zero => intro i lc; rfl
  | succ n ih =>
    intro i lc
    show (mockPoints rng vrng sd iv (i + 1) n _).length + 1 = n + 1
    rw [ih (i + 1)]

lemma generate_length_none (timeframe : String) (now : ℤ) (r0 : ℚ)
    (rng : ℕ → ℚ) (vrng : ℕ → ℤ) :
    (generate_mock_stock_data_local timeframe none now r0 rng vrng).length
      = (timeframeTable timeframe).2 := by
  unfold generate_mock_stock_data_local
  exact mockPoints_length _ _ _ _ _ 0 _

lemma generate_length_some (timeframe : String) (n : ℕ) (hn : n ≠ 0) (now : ℤ)
    (r0 : ℚ) (rng : ℕ → ℚ) (vrng : ℕ → ℤ) :
    (generate_mock_stock_data_local timeframe (some n) now r0 rng vrng).length
      = n := by
  unfold generate_mock_stock_data_local
  have ht : truthyOverride (some n) = true := by
    simp [truthyOverride, hn]
  rw [ht]
  show (mockPoints rng vrng _ _ 0 (if true then (some n).getD 0 else _) _).length = n
  rw [if_pos rfl]
  exact mockPoints_length _ _ _ _ _ 0 _

/-- Counterexample to claim C5 as stated: with timeframe 1y and the explicit
point-count override 0, the output length is the table default 250, not the
override value 0, because the source tests the override with Python
truthiness and 0 is falsy. -/
theorem C5_counterexample_override_zero :
    (generate_mock_stock_data_local "1y" (some 0) 0 0
      (fun _ => 0) (fun _ => 100000)).length ≠ 0 := by
  have h : (generate_mock_stock_data_local "1y" (some 0) 0 0
      (fun _ => 0) (fun _ => 100000)).length = 250 := by
    unfold generate_mock_stock_data_local
    have ht : truthyOverride (some 0) = false := by decide
    rw [ht]
    simp only [Bool.false_eq_true, if_false, mockPoints_length]
    decide
  rw [h]
  decide

/-- Claim C5 (amended): with no override, the output length for timeframe
5m, 1d, 1w, 1m or 1y equals the table default 60, 8, 5, 20 or 250; and for
every nonzero explicit override the output length equals the override. An
override of 0 is falsy in the source and is treated as absent. -/
theorem C5_amended_lengths (now : ℤ) (r0 : ℚ) (rng : ℕ → ℚ) (vrng : ℕ → ℤ) :
    (∀ tf cnt, (tf, cnt) ∈ ([("5m", 60), ("1d", 8), ("1w", 5), ("1m", 20),
        ("1y", 250)] : List (String × ℕ)) →
      (generate_mock_stock_data_local tf none now r0 rng vrng).length = cnt) ∧
    (∀ tf n, n ≠ 0 →
      (generate_mock_stock_data_local tf (some n) now r0 rng vrng).length = n) := by
  constructor
  · intro tf cnt hmem
    rw [generate_length_none]
    fin_cases hmem <;> decide
  · intro tf n hn
    exact generate_length_some tf n hn now r0 rng vrng

/-- Witness for the amended C5: the 1w default count is 5 and an override of
7 yields 7 points. -/
theorem C5_amended_lengths_witness :
    (generate_mock_stock_data_local "1w" none 0 0
        (fun _ => 0) (fun _ => 100000)).length = 5 ∧
    (generate_mock_stock_data_local "1y" (some 7) 0 0
        (fun _ => 0) (fun _ => 100000)).length = 7 :=
  ⟨(C5_amended_lengths 0 0 (fun _ => 0) (fun _ => 100000)).1 "1w" 5 (by decide),
   (C5_amended_lengths 0 0 (fun _ => 0) (fun _ => 100000)).2 "1y" 7 (by decide)⟩

/-- Counterexample to claim C6 as stated: for the unknown timeframe token
2y with no override, the generator returns 0 points, not the 1y row of 250
points, because the if chain of the source has no else branch and the point
count stays at its zero initialisation. -/
theorem C6_counterexample_unknown_timeframe :
    (generate_mock_stock_data_local "2y" none 0 0
      (fun _ => 0) (fun _ => 100000)).length ≠ 250 := by
  rw [generate_length_none]
  decide

/-- Claim C6 (amended): for every timeframe token outside {5m, 1d, 1w, 1m,
1y} and no point-count override, the generator returns the empty series (the
source leaves the point count at 0), rather than defaulting to the 1y row. -/
theorem C6_amended_unknown_timeframe_empty (tf : String)
    (h5m : tf ≠ "5m") (h1d : tf ≠ "1d") (h1w : tf ≠ "1w") (h1m : tf ≠ "1m")
    (h1y : tf ≠ "1y") (now : ℤ) (r0 : ℚ) (rng : ℕ → ℚ) (vrng : ℕ → ℤ) :
    generate_mock_stock_data_local tf none now r0 rng vrng = [] := by
  have ht : timeframeTable tf = (0, 0) := by
    unfold timeframeTable
    rw [if_neg h5m, if_neg h1d, if_neg h1w, if_neg h1m, if_neg h1y]
  unfold generate_mock_stock_data_local
  rw [ht]
  rfl

/-- Witness for the amended C6: the unknown token 2y yields the empty
series. -/
theorem C6_amended_witness :
    generate_mock_stock_data_local "2y" none 0 0
      (fun _ => 0) (fun _ => 100000) = [] :=
  C6_amended_unknown_timeframe_empty "2y" (by decide) (by decide) (by decide)
    (by decide) (by decide) 0 0 (fun _ => 0) (fun _ => 100000)

/-- The per-point OHLCV invariant claimed for the generator: low at most
min(open, close), high at least max(open, close), nonnegative volume, and
all four prices rounded to two decimal places. -/
def pointInv (p : PricePoint) : Prop :=
  p.Low ≤ min p.Open p.Close ∧ max p.Open p.Close ≤ p.High ∧ 0 ≤ p.Volume ∧
  isCent p.Open ∧ isCent p.High ∧ isCent p.Low ∧ isCent p.Close

/-- The series invariant: every point satisfies pointInv and timestamps are
strictly increasing (hence duplicate-free). -/
def seriesInv (l : List PricePoint) : Prop :=
  (∀ p ∈ l, pointInv p) ∧ l.Chain' (fun p q => p.Date < q.Date)

lemma mockPoints_pointInv (rng : ℕ → ℚ) (vrng : ℕ → ℤ)
    (hr : ∀ n, 0 ≤ rng n ∧ rng n < 1) (hv : ∀ n, 100000 ≤ vrng n)
    (sd iv : ℤ) :
    ∀ (n i : ℕ) (lc : ℚ), 0 < lc →
      ∀ p ∈ mockPoints rng vrng sd iv i n lc, pointInv p := by
  intro n
  induction n with
  | zero => intro i lc _ p hp; simp [mockPoints] at hp
  | succ n ih =>
    intro i lc hlc p hp
    obtain ⟨ho0, ho1⟩ := hr (4*i)
    obtain ⟨hc0, hc1⟩ := hr (4*i+1)
    obtain ⟨hh0, hh1⟩ := hr (4*i+2)
    obtain ⟨hl0, hl1⟩ := hr (4*i+3)
    have hopen : 0 < lc * (1 + (rng (4*i) - 1/2) * (2/100)) :=
      mul_pos hlc (by nlinarith)
    have hclose : 0 < lc * (1 + (rng (4*i) - 1/2) * (2/100))
        * (1 + (rng (4*i+1) - 1/2) * (2/100)) :=
      mul_pos hopen (by nlinarith)
    simp only [mockPoints, List.mem_cons] at hp
    rcases hp with h | h
    · subst h
      set o := lc * (1 + (rng (4*i) - 1/2) * (2/100)) with ho
      set c := o * (1 + (rng (4*i+1) - 1/2) * (2/100)) with hc
      refine ⟨?_, ?_, ?_, isCent_round2 _, isCent_round2 _, isCent_round2 _,
        isCent_round2 _⟩
      · show round2 (min o c * (1 - rng (4*i+3) * (1/100))) ≤ min (round2 o) (round2 c)
        rw [← round2_min]
        apply round2_mono
        have hm : (0 : ℚ) ≤ min o c := le_min (le_of_lt hopen) (le_of_lt hclose)
        exact mul_le_of_le_one_right hm (by linarith)
      · show max (round2 o) (round2 c) ≤ round2 (max o c * (1 + rng (4*i+2) * (1/100)))
        rw [← round2_max]
        apply round2_mono
        have hM : (0 : ℚ) ≤ max o c := le_trans (le_of_lt hopen) (le_max_left _ _)
        exact le_mul_of_one_le_right hM (by linarith)
      · show (0 : ℤ) ≤ vrng i
        have := hv i
        omega
    · exact ih (i + 1) _ hclose p h

lemma mockPoints_chain (rng : ℕ → ℚ) (vrng : ℕ → ℤ) (sd iv : ℤ) (hiv : 0 < iv) :
    ∀ (n i : ℕ) (lc : ℚ),
      (mockPoints rng vrng sd iv i n lc).Chain' (fun p q => p.Date < q.Date) ∧
      ∀ p ∈ (mockPoints rng vrng sd iv i n lc).head?,
        p.Date = sd + (i : ℤ) * iv := by
  intro n
  induction n with
  | zero =>
    intro i lc
    refine ⟨List.chain'_nil, ?_⟩
    intro p hp
    simp [mockPoints] at hp
  | succ n ih =>
    intro i lc
    constructor
    · simp only [mockPoints]
      rw [List.chain'_cons']
      constructor
      · intro q hq
        have hdq := (ih (i + 1) _).2 q hq
        show sd + (i : ℤ) * iv < q.Date
        rw [hdq]
        push_cast
        nlinarith
      · exact (ih (i + 1) _).1
    · simp only [mockPoints, List.head?_cons]
      intro p hp
      simp only [Option.mem_def, Option.some.injEq] at hp
      subst hp
      rfl

/-- Claim C7: for every known timeframe token and every run of the random
source, every generated point has low at most min(open, close), high at
least max(open, close) and nonnegative volume, all prices rounded to two
decimal places, and the timestamps are strictly increasing. -/
theorem C7_mock_series_invariants (tf : String)
    (htf : tf ∈ (["5m", "1d", "1w", "1m", "1y"] : List String))
    (now : ℤ) (r0 : ℚ) (hr0 : 0 ≤ r0 ∧ r0 < 1)
    (rng : ℕ → ℚ) (hr : ∀ n, 0 ≤ rng n ∧ rng n < 1)
    (vrng : ℕ → ℤ) (hv : ∀ n, 100000 ≤ vrng n ∧ vrng n < 5000000) :
    seriesInv (generate_mock_stock_data_local tf none now r0 rng vrng) := by
  have hiv : 0 < (timeframeTable tf).1 := by
    fin_cases htf <;> decide
  have hlc : (0 : ℚ) < 980 + r0 * (1020 - 980) := by nlinarith [hr0.1]
  unfold generate_mock_stock_data_local
  refine ⟨?_, ?_⟩
  · exact mockPoints_pointInv rng vrng hr (fun n => (hv n).1) _ _ _ 0 _ hlc
  · exact (mockPoints_chain rng vrng _ _ hiv _ 0 _).1

/-- Witness for C7: the 1w series generated from the constant draw 1/2 and
constant volume 100000 satisfies the series invariant. -/
theorem C7_mock_series_invariants_witness :
    seriesInv (generate_mock_stock_data_local "1w" none 0 (1/2)
      (fun _ => 1/2) (fun _ => 100000)) :=
  C7_mock_series_invariants "1w" (by decide) 0 (1/2) (by norm_num)
    (fun _ => 1/2) (fun _ => by norm_num)
    (fun _ => 100000) (fun _ => by norm_num)

/-- Model of get_yfinance_symbol as implemented with the per-equity SBI
override (pages/SBI.py lines 120 to 127); the body after the override block
is the shared suffixing rule, reached when no override case returns. -/
def get_yfinance_symbol (symbol : String) (exchange : String) : String :=
  let generic :=
    if toUpperStr exchange = "NSE" then symbol ++ ".NS"
    else if toUpperStr exchange = "BSE" then symbol ++ ".BO"
    else symbol
  if toUpperStr symbol = "SBI" then
    if toUpperStr exchange = "NSE" then "SBIN.NS"
    else if toUpperStr exchange = "BSE" then "SBIN.BO"
    else generic
  else generic

/-- Claim C8: the Symbol Resolver returns the per-equity override ticker
when one exists (SBI on NSE gives SBIN.NS, SBI on BSE gives SBIN.BO),
otherwise the logical symbol suffixed with .NS for NSE or .BO for BSE, and
for an unknown exchange the logical symbol unchanged, without error. -/
theorem C8_symbol_resolver (symbol exchange : String) :
    (toUpperStr symbol = "SBI" → toUpperStr exchange = "NSE" →
      get_yfinance_symbol symbol exchange = "SBIN.NS") ∧
    (toUpperStr symbol = "SBI" → toUpperStr exchange = "BSE" →
      get_yfinance_symbol symbol exchange = "SBIN.BO") ∧
    (toUpperStr symbol ≠ "SBI" → toUpperStr exchange = "NSE" →
      get_yfinance_symbol symbol exchange = symbol ++ ".NS") ∧
    (toUpperStr symbol ≠ "SBI" → toUpperStr exchange = "BSE" →
      get_yfinance_symbol symbol exchange = symbol ++ ".BO") ∧
    (toUpperStr exchange ≠ "NSE" → toUpperStr exchange ≠ "BSE" →
      get_yfinance_symbol symbol exchange = symbol) := by
  unfold get_yfinance_symbol
  refine ⟨?_, ?_, ?_, ?_, ?_⟩
  · intro hs he
    rw [if_pos hs, if_pos he]
  · intro hs he
    rw [if_pos hs, if_neg (by rw [he]; decide), if_pos he]
  · intro hs he
    rw [if_neg hs, if_pos he]
  · intro hs he
    rw [if_neg hs, if_neg (by rw [he]; decide), if_pos he]
  · intro hn hb
    by_cases hs : toUpperStr symbol = "SBI"
    · rw [if_pos hs, if_neg hn, if_neg hb, if_neg hn, if_neg hb]
    · rw [if_neg hs, if_neg hn, if_neg hb]

/-- Witness for C8: the spec examples SBI/NSE, SBI/BSE, IRCTC/NSE and an
unknown exchange evaluated concretely. -/
theorem C8_symbol_resolver_witness :
    get_yfinance_symbol "SBI" "NSE" = "SBIN.NS" ∧
    get_yfinance_symbol "SBI" "BSE" = "SBIN.BO" ∧
    get_yfinance_symbol "IRCTC" "NSE" = "IRCTC.NS" ∧
    get_yfinance_symbol "SBI" "XYZ" = "SBI" :=
  ⟨(C8_symbol_resolver "SBI" "NSE").1 (by decide) (by decide),
   (C8_symbol_resolver "SBI" "BSE").2.1 (by decide) (by decide),
   (C8_symbol_resolver "IRCTC" "NSE").2.2.1 (by decide) (by decide),
   (C8_symbol_resolver "SBI" "XYZ").2.2.2.2 (by decide) (by decide)⟩

/-- A raw provider article as consumed by get_financial_news_api: each field
may be absent, in which case the source substitutes a default via dict.get. -/
structure RawArticle where
  sourceName : Option String
  title : Option String
  description : Option String
  content : Option String
  url : Option String
  publishedAt : Option String
deriving DecidableEq

/-- The JSON body of a successful (2xx) provider response: a status string,
an error message and an article array (backend_app.py lines 246 to 262). -/
structure NewsApiBody where
  status : String
  message : String
  articles : List RawArticle
deriving DecidableEq

/-- Outcome of the HTTP request made by get_financial_news_api: a timeout,
any other transport-level failure (including non-2xx statuses raised by
raise_for_status), or a parsed 2xx JSON body. -/
inductive HttpOutcome where
  | timeout
  | requestFailure (err : String)
  | success (body : NewsApiBody)
deriving DecidableEq

/-- A raised FastAPI HTTPException, modelled by its status code and detail. -/
structure HTTPException where
  statusCode : ℕ
  detail : String
deriving DecidableEq

/-- The field normalisation applied to each genuine provider article
(backend_app.py lines 250 to 258). -/
def normalizeArticle (a : RawArticle) : NewsArticle :=
  { source := a.sourceName.getD "Unknown",
    title := a.title.getD "No Title",
    content := a.description.getD (a.content.getD "No content available"),
    url := a.url.getD "#",
    publishedAt := a.publishedAt.getD "N/A",
    event := "General News" }

/-- The synthetic fallback article returned on masked failures: source is
always "Mock News", the title encodes the failure reason, the event is
"Mock Event" and publishedAt is the current time. -/
def mockNewsArticle (query reason content now_iso : String) : NewsArticle :=
  { source := "Mock News",
    title := "Mock News for " ++ query ++ " - " ++ reason,
    content := content, url := "#", publishedAt := now_iso,
    event := "Mock Event" }

/-- Model of get_financial_news_api (backend_app.py lines 221 to 285).
Returns Except.error for the raised HTTPException of the unclassified
provider error status, Except.ok (some articles) for every returning path,
and Except.ok none for the fall-through when the provider status is neither
"ok" nor "error" (the Python function then returns None). -/
def get_financial_news_api (news_api_key : Option String) (now_iso : String)
    (query : String) (outcome : HttpOutcome) :
    Except HTTPException (Option (List NewsArticle)) :=
  match news_api_key with
  | none => .ok (some [mockNewsArticle query "Key Missing"
      "This is a mock news article because the NewsAPI key is not configured or an error occurred."
      now_iso])
  | some _ =>
    match outcome with
    | .timeout => .ok (some [mockNewsArticle query "Timeout"
        "This is a mock news article due to NewsAPI.org timeout." now_iso])
    | .requestFailure _ => .ok (some [mockNewsArticle query "Request Failed"
        "This is a mock news article due to NewsAPI.org request failure." now_iso])
    | .success body =>
      if body.status = "ok" then
        .ok (some (body.articles.map normalizeArticle))
      else if body.status = "error" then
        if containsStr body.message "maximum results for free plan" then
          .ok (some [mockNewsArticle query "Rate Limit"
            "This is a mock news article due to NewsAPI.org rate limits." now_iso])
        else
          .error { statusCode := 500,
                   detail := "NewsAPI.org API error: " ++ body.message }
      else
        .ok none

/-- Model of the /news_analysis endpoint (backend_app.py lines 331 to 387):
the news fetch is issued for the query suffixed with " stock", a raised
HTTPException propagates, and the fetched value feeds the processing loop. -/
def news_analysis_endpoint (news_api_key : Option String) (now_iso : String)
    (query : String) (outcome : HttpOutcome) (rng : ℕ → ℕ → ℚ) :
    Except HTTPException (List ProcessedNewsItem × TradingSignal) :=
  match get_financial_news_api news_api_key now_iso (query ++ " stock") outcome with
  | .error e => .error e
  | .ok raw => .ok (news_analysis query raw rng)

/-- Claim C9: under each masked failure (no credential, provider rate-limit
error, timeout, other transport failure) the News Fetcher returns exactly
one synthetic article with source "Mock News" whose title encodes the
failure reason, and raises nothing. -/
theorem C9_news_fetcher_fallbacks (query now_iso : String) :
    (∀ outcome, get_financial_news_api none now_iso query outcome =
      .ok (some [mockNewsArticle query "Key Missing"
        "This is a mock news article because the NewsAPI key is not configured or an error occurred."
        now_iso])) ∧
    (∀ key, get_financial_news_api (some key) now_iso query .timeout =
      .ok (some [mockNewsArticle query "Timeout"
        "This is a mock news article due to NewsAPI.org timeout." now_iso])) ∧
    (∀ key err, get_financial_news_api (some key) now_iso query
        (.requestFailure err) =
      .ok (some [mockNewsArticle query "Request Failed"
        "This is a mock news article due to NewsAPI.org request failure." now_iso])) ∧
    (∀ key body, body.status = "error" →
      containsStr body.message "maximum results for free plan" = true →
      get_financial_news_api (some key) now_iso query (.success body) =
        .ok (some [mockNewsArticle query "Rate Limit"
          "This is a mock news article due to NewsAPI.org rate limits." now_iso])) := by
  refine ⟨fun _ => rfl, fun _ => rfl, fun _ _ => rfl, ?_⟩
  intro key body hstatus hmsg
  show (if body.status = "ok" then _
    else if body.status = "error" then
      if containsStr body.message "maximum results for free plan" then _ else _
    else _) = _
  rw [if_neg (by rw [hstatus]; decide), if_pos hstatus, if_pos hmsg]

/-- Witness for C9: a concrete rate-limit error body yields the single
rate-limit mock article. -/
theorem C9_news_fetcher_fallbacks_witness :
    get_financial_news_api (some "k") "2024-01-01T00:00:00" "IRCTC"
        (.success { status := "error",
                    message := "You have reached the maximum results for free plan.",
                    articles := [] }) =
      .ok (some [mockNewsArticle "IRCTC" "Rate Limit"
        "This is a mock news article due to NewsAPI.org rate limits."
        "2024-01-01T00:00:00"]) :=
  (C9_news_fetcher_fallbacks "IRCTC" "2024-01-01T00:00:00").2.2.2 "k"
    { status := "error",
      message := "You have reached the maximum results for free plan.",
      articles := [] } rfl (by decide)

/-- Claim C10: when the provider responds successfully but its status field
is neither "ok" nor "error", the News Fetcher falls through and yields no
article list (None), and the news-analysis pipeline treats this as the
zero-article case, returning an empty annotated list with the neutral
default TradingSignal instead of an error. -/
theorem C10_unknown_status_falls_through (key query now_iso : String)
    (body : NewsApiBody) (rng : ℕ → ℕ → ℚ)
    (h1 : body.status ≠ "ok") (h2 : body.status ≠ "error") :
    get_financial_news_api (some key) now_iso (query ++ " stock")
        (.success body) = .ok none ∧
    news_analysis_endpoint (some key) now_iso query (.success body) rng =
      .ok ([], defaultTradingSignal query) := by
  have hfetch : get_financial_news_api (some key) now_iso (query ++ " stock")
      (.success body) = .ok none := by
    show (if body.status = "ok" then _
      else if body.status = "error" then _ else _) = _
    rw [if_neg h1, if_neg h2]
  refine ⟨hfetch, ?_⟩
  unfold news_analysis_endpoint
  rw [hfetch]
  rfl

/-- Witness for C10: a concrete body with status "weird" yields None from
the fetcher and the neutral default signal from the endpoint. -/
theorem C10_unknown_status_falls_through_witness :
    get_financial_news_api (some "k") "2024-01-01T00:00:00" ("IRCTC" ++ " stock")
        (.success { status := "weird", message := "", articles := [] }) = .ok none ∧
    news_analysis_endpoint (some "k") "2024-01-01T00:00:00" "IRCTC"
        (.success { status := "weird", message := "", articles := [] })
        (fun _ _ => 0) =
      .ok ([], defaultTradingSignal "IRCTC") :=
  C10_unknown_status_falls_through "k" "IRCTC" "2024-01-01T00:00:00"
    { status := "weird", message := "", articles := [] } (fun _ _ => 0)
    (by decide) (by decide)
